import Mathlib

/-!
Verification of the 3D container-stowage viewer core (main_stowage_viewer.py
and app.py) against its natural-language specification.

The Python core is shallowly embedded below:

* Raw column values (which Python's `int(...)` may or may not convert) are
  modelled by the `Raw` type; `Raw.toInt` models `int(...)`, returning `none`
  where Python would raise `ValueError`/`TypeError`.
* Python's `%` and `//` by the positive literal `2` agree with `Int.emod` and
  `Int.ediv`, which are Lean's `%` and `/` on `Int`; the embedding uses those.
* Python floats in this program only ever hold exact half-integer values
  produced by `p / 2` on even numerators and by `+ 1.0` / `+ 2.0`, so they are
  modelled exactly by `Rat` with true division.
* The plotly trace objects are modelled by `Mesh3d` / `Scatter3d` records that
  keep the data-bearing fields (vertex lists, triangle index lists, edge point
  lists, color, hover text); constant rendering attributes of the source
  (opacity 1.0, flat shading, the fixed lighting dict, black line width 2) are
  compile-time constants with no data dependence and are elided.
* The per-record loop of `main` (try/except around each record, `continue` on
  failure) is `assemble_main`; the per-record loop of app.py (no per-record
  handler, one top-level `except` that abandons the whole figure) is
  `assemble_app`, whose `none` result models the aborted build.
-/

/-- A raw cell value of the Bay/Row/Tier columns: either an integer-like
value, or a value that `int(...)` cannot convert (carried with its display
string, as `str(...)` would show it). -/
inductive Raw where
  | intLike (n : Int)
  | nonNumeric (s : String)
  deriving DecidableEq, Repr

/-- Models Python `int(value)`: `none` where the conversion raises. -/
def Raw.toInt : Raw → Option Int
  | .intLike n => some n
  | .nonNumeric _ => none

/-- Models Python `str(value)`. -/
def Raw.pyStr : Raw → String
  | .intLike n => toString n
  | .nonNumeric s => s

/-- Embeds `row_to_y` of main_stowage_viewer.py: converts a ship row code to a
Cartesian y-coordinate. `int(row)` failing is the `except` branch returning
`None` (here `none`); row code 0 returns the coordinate 0; otherwise
`steps = (r + 1) // 2` (floor division by the positive 2, i.e. `Int` `/`) with
sign `+1` for `r % 2 == 1` and `-1` otherwise. -/
def row_to_y (row : Raw) : Option Int :=
  match row.toInt with
  | none => none
  | some r =>
    if r = 0 then some 0
    else some ((if r % 2 = 1 then 1 else -1) * ((r + 1) / 2))

/-- Embeds `calculate_dimensions` of main_stowage_viewer.py: the x-position
and length of a container from its bay number. Python's true division `/ 2`
is exact rational division here. -/
def calculate_dimensions (bay : Int) : Rat × Rat :=
  if bay % 2 = 0 then (((bay : Rat) - 2) / 2, 2)
  else (((bay : Rat) - 1) / 2, 1)

/-- The data-bearing fields of the `go.Mesh3d` solid-face trace. -/
structure Mesh3d where
  x : List Rat
  y : List Rat
  z : List Rat
  i : List Nat
  j : List Nat
  k : List Nat
  color : String
  text : String
  deriving DecidableEq, Repr

/-- The data-bearing fields of the `go.Scatter3d` wireframe trace; `none`
entries are the `None` path-break markers of the source. -/
structure Scatter3d where
  x : List (Option Rat)
  y : List (Option Rat)
  z : List (Option Rat)
  deriving DecidableEq, Repr

/-- The `i` triangle-index list of the solid mesh (first vertex of each of the
12 triangles), verbatim from the source. -/
def faceI : List Nat := [0, 0, 4, 4, 0, 0, 1, 1, 2, 2, 3, 3]

/-- The `j` triangle-index list (second vertex of each triangle). -/
def faceJ : List Nat := [1, 3, 5, 7, 4, 7, 2, 6, 3, 7, 4, 5]

/-- The `k` triangle-index list (third vertex of each triangle). -/
def faceK : List Nat := [2, 2, 6, 6, 7, 3, 6, 5, 7, 6, 5, 1]

/-- The `path_indices` list of the source: vertex indices of the wireframe
polyline, with `none` as the `None` path-break marker. -/
def path_indices : List (Option Nat) :=
  [some 0, some 1, some 2, some 3, some 0, none,
   some 4, some 5, some 6, some 7, some 4, none,
   some 0, some 4, none, some 1, some 5, none,
   some 2, some 6, none, some 3, some 7]

/-- Embeds `create_container_traces`: builds the 8 box vertices, the solid
12-triangle `Mesh3d`, and the wireframe `Scatter3d` whose point lists are
`path_indices` looked up in the vertex lists (a break index stays a break). -/
def create_container_traces (x y z length width height : Rat)
    (color hovertext : String) : Mesh3d × Scatter3d :=
  let vx : List Rat := [x, x + length, x + length, x, x, x + length, x + length, x]
  let vy : List Rat := [y, y, y + width, y + width, y, y, y + width, y + width]
  let vz : List Rat := [z, z, z, z, z + height, z + height, z + height, z + height]
  let edge : List Rat → List (Option Rat) := fun v =>
    path_indices.map (fun oi => oi.bind (fun idx => v[idx]?))
  ({ x := vx, y := vy, z := vz, i := faceI, j := faceJ, k := faceK,
     color := color, text := hovertext },
   { x := edge vx, y := edge vy, z := edge vz })

/-- One validated tabular row, after the caller's `dropna` on Bay/Row/Tier:
the three coordinate columns and the four string columns. -/
structure ContainerRecord where
  bay : Raw
  row : Raw
  tier : Raw
  cid : String
  location : String
  cargo : String
  colour : String
  deriving DecidableEq, Repr

/-- The hover string built in both entry points. -/
def hover_text (c : ContainerRecord) : String :=
  "<b>ID:</b> " ++ c.cid ++ "<br><b>Location:</b> " ++ c.location ++
    "<br><b>Cargo:</b> " ++ c.cargo

/-- The shared per-record body of both loops: convert the bay (`int` may
raise), convert the tier (`int` may raise), map the row (an unconvertible row
yields `none`; in `main` that takes the `if y is None` skip, in app.py the
`None` poisons `y + width` with a `TypeError`), then build the traces.
`none` means the record produced no traces, for whichever reason. -/
def process_record (c : ContainerRecord) : Option (Mesh3d × Scatter3d) :=
  match c.bay.toInt with
  | none => none
  | some bay =>
    match c.tier.toInt with
    | none => none
    | some tier =>
      match row_to_y c.row with
      | none => none
      | some y =>
        let d := calculate_dimensions bay
        some (create_container_traces d.1 (y : Rat) ((tier : Rat) - 1) d.2 1 1
          c.colour (hover_text c))

/-- The per-record loop of `main` in main_stowage_viewer.py: each record sits
in its own try/except and a failing record is skipped with `continue`. -/
def assemble_main : List ContainerRecord → List (Mesh3d × Scatter3d)
  | [] => []
  | c :: rest =>
    match process_record c with
    | none => assemble_main rest
    | some tr => tr :: assemble_main rest

/-- The per-record loop of app.py: no per-record handler, so the first raising
record reaches the surrounding `except Exception` and the whole figure is
abandoned (`none`). -/
def assemble_app : List ContainerRecord → Option (List (Mesh3d × Scatter3d))
  | [] => some []
  | c :: rest =>
    match process_record c with
    | none => none
    | some tr => (assemble_app rest).map (fun l => tr :: l)

/-- Models Python `f"{b:02d}"`: decimal, zero-padded to at least two
characters (padding only ever fires for 0..9). -/
def pad2 (b : Int) : String :=
  if 0 ≤ b ∧ b < 10 then "0" ++ toString b else toString b

/-- Converts a whole column with `int(...)` semantics: `none` as soon as any
cell is unconvertible, modelling the uncaught exception the tick-derivation
comprehensions would raise on such a cell. -/
def toIntAll : List Raw → Option (List Int)
  | [] => some []
  | r :: t =>
    match r.toInt, toIntAll t with
    | some n, some ns => some (n :: ns)
    | _, _ => none

/-- Embeds the bay-tick derivation of both entry points:
`sorted([b for b in df['Bay'].unique() if b % 2 == 0])`, positions
`(b - 2) / 2`, labels `f"{b:02d}"`. `unique()` keeps one copy of each distinct
value (`List.dedup`; which duplicate survives is irrelevant once sorted), and
the arithmetic on a non-numeric bay raises, aborting the derivation. -/
def bay_ticks (records : List ContainerRecord) : Option (List (Rat × String)) :=
  match toIntAll (records.map ContainerRecord.bay).dedup with
  | none => none
  | some bs =>
    some (((bs.filter (fun b => b % 2 = 0)).insertionSort (· ≤ ·)).map
      (fun b => (((Int.cast b : Rat) - 2) / 2, pad2 b)))

/-- The order Python `sorted` uses on a homogeneous Row column: numeric order
on numbers, lexicographic on strings. A pandas column is homogeneous, so the
relative order of the two variants never arises at the source's call site;
it is fixed arbitrarily here to make the relation total. -/
def Raw.le : Raw → Raw → Prop
  | .intLike n, .intLike m => n ≤ m
  | .nonNumeric s, .nonNumeric t => s ≤ t
  | .intLike _, .nonNumeric _ => True
  | .nonNumeric _, .intLike _ => False

instance : DecidableRel Raw.le := fun a b => by
  cases a <;> cases b <;> simp only [Raw.le] <;> infer_instance

/-- Embeds the row-tick derivation of both entry points:
`sorted(df['Row'].unique())` with positions `row_to_y(r)` (which may be the
`None` sentinel) and labels `str(r)`. -/
def row_ticks (records : List ContainerRecord) : List (Option Int × String) :=
  (((records.map ContainerRecord.row).dedup).insertionSort Raw.le).map
    (fun r => (row_to_y r, r.pyStr))

/-- The triangle list of a mesh: the `i`/`j`/`k` columns zipped. -/
def mesh_triangles (m : Mesh3d) : List (Nat × Nat × Nat) :=
  (m.i.zip (m.j.zip m.k)).map (fun t => (t.1, t.2.1, t.2.2))

/-- The vertex of a mesh at an index (0 outside the lists, never reached on
the meshes built here). -/
def mesh_vertex (m : Mesh3d) (idx : Nat) : Rat × Rat × Rat :=
  (m.x.getD idx 0, m.y.getD idx 0, m.z.getD idx 0)

/-- An undirected edge as an ordered index pair. -/
def edge_key (a b : Nat) : Nat × Nat := if a ≤ b then (a, b) else (b, a)

/-- All triangle edges of a mesh, normalized, with multiplicity. -/
def mesh_edges (m : Mesh3d) : List (Nat × Nat) :=
  (mesh_triangles m).flatMap
    (fun t => [edge_key t.1 t.2.1, edge_key t.2.1 t.2.2, edge_key t.1 t.2.2])

/-- The triangle `t` of mesh `m` lies in one of the 6 face planes of the
axis-aligned box at `(x, y, z)` with extents `(l, w, h)`. -/
def tri_in_face_plane (x y z l w h : Rat) (m : Mesh3d) (t : Nat × Nat × Nat) : Prop :=
  let p := mesh_vertex m t.1
  let q := mesh_vertex m t.2.1
  let r := mesh_vertex m t.2.2
  (p.1 = q.1 ∧ q.1 = r.1 ∧ (p.1 = x ∨ p.1 = x + l)) ∨
  (p.2.1 = q.2.1 ∧ q.2.1 = r.2.1 ∧ (p.2.1 = y ∨ p.2.1 = y + w)) ∨
  (p.2.2 = q.2.2 ∧ q.2.2 = r.2.2 ∧ (p.2.2 = z ∨ p.2.2 = z + h))

/-- The longitudinal intervals of the boxes at two bays share an interior
point: `[x₁, x₁+len₁]` and `[x₂, x₂+len₂]` overlap beyond a shared endpoint. -/
def bays_overlap (b₁ b₂ : Int) : Prop :=
  (calculate_dimensions b₁).1 < (calculate_dimensions b₂).1 + (calculate_dimensions b₂).2 ∧
  (calculate_dimensions b₂).1 < (calculate_dimensions b₁).1 + (calculate_dimensions b₁).2

/-- Accumulator-based splitter for `segments`. -/
def segsAux (cur : List α) : List (Option α) → List (List α)
  | [] => if cur.isEmpty then [] else [cur.reverse]
  | none :: t => if cur.isEmpty then segsAux [] t else cur.reverse :: segsAux [] t
  | some a :: t => segsAux (a :: cur) t

/-- The maximal non-empty runs between path-break markers. -/
def segments (l : List (Option α)) : List (List α) := segsAux [] l

/-- The wireframe's coordinate lists zipped into a single point list; a break
in any coordinate is a break of the polyline (the source always breaks all
three together). -/
def wirePoints (w : Scatter3d) : List (Option (Rat × Rat × Rat)) :=
  (w.x.zip (w.y.zip w.z)).map (fun p =>
    match p with
    | (some a, some b, some c) => some (a, b, c)
    | _ => none)

/-- The record has a bay, tier or row value `int(...)` cannot convert. -/
def unconvertible (c : ContainerRecord) : Prop :=
  c.bay.toInt = none ∨ c.tier.toInt = none ∨ c.row.toInt = none

/-- A record with given coordinate cells and fixed string fields, for concrete
scenarios. -/
def mkRecord (b r t : Raw) : ContainerRecord :=
  ⟨b, r, t, "CID", "LOC", "CARGO", "crimson"⟩

/-- Auxiliary: `Raw.intLike` is injective. -/
theorem intLike_injective : Function.Injective Raw.intLike := by
  intro a b h
  injection h

/-- Auxiliary: deduplication commutes with wrapping a column in `Raw.intLike`. -/
theorem dedup_map_intLike : ∀ l : List Int,
    (l.map Raw.intLike).dedup = l.dedup.map Raw.intLike := by
  intro l
  induction l with
  | nil => rfl
  | cons a t ih =>
    by_cases h : a ∈ t
    · rw [List.map_cons, List.dedup_cons_of_mem, List.dedup_cons_of_mem h, ih]
      exact (List.mem_map_of_injective intLike_injective).mpr h
    · rw [List.map_cons, List.dedup_cons_of_not_mem, List.dedup_cons_of_not_mem h,
        List.map_cons, ih]
      exact fun hm => h ((List.mem_map_of_injective intLike_injective).mp hm)

/-- Auxiliary: converting an all-integer column succeeds and returns it. -/
theorem toIntAll_map_intLike : ∀ l : List Int,
    toIntAll (l.map Raw.intLike) = some l := by
  intro l
  induction l with
  | nil => rfl
  | cons a t ih => simp [toIntAll, Raw.toInt, ih]

/-- Auxiliary: a record with an unconvertible bay, tier or row produces no
traces in the per-record body shared by both loops. -/
theorem process_record_of_unconvertible (c : ContainerRecord) (h : unconvertible c) :
    process_record c = none := by
  rcases h with h | h | h
  · simp [process_record, h]
  · cases hb : c.bay.toInt <;> simp [process_record, hb, h]
  · have hry : row_to_y c.row = none := by simp [row_to_y, h]
    cases hb : c.bay.toInt <;> cases ht : c.tier.toInt <;>
      simp [process_record, hb, ht, hry]

/-- Claim C1, counterexample: `row_to_y` applied to row code 0 returns the
coordinate `some 0`, not the `none` (NOT_MAPPABLE) sentinel, and a record
with row 0 contributes a mesh pair to the assembled scene. -/
theorem C1_cx :
    row_to_y (Raw.intLike 0) = some 0
    ∧ row_to_y (Raw.intLike 0) ≠ none
    ∧ (assemble_main [mkRecord (Raw.intLike 2) (Raw.intLike 0) (Raw.intLike 1)]).length = 1 :=
  ⟨by decide, by decide, by decide⟩

/-- Claim C1 (amended): for the input row code 0, `row_to_y` returns the
coordinate 0, and a ContainerRecord with row 0 and convertible bay and tier
contributes box geometry at y = 0 to the assembled scene. -/
theorem C1_amended : ∀ (c : ContainerRecord) (b t : Int),
    c.bay = Raw.intLike b → c.tier = Raw.intLike t → c.row = Raw.intLike 0 →
    row_to_y c.row = some 0 ∧ (assemble_main [c]).length = 1
    ∧ ∀ p ∈ assemble_main [c], p.1.y = [0, 0, 1, 1, 0, 0, 1, 1] := by
  intro c b t hb ht hr
  have h1 : row_to_y c.row = some 0 := by rw [hr]; decide
  have h2 : process_record c = some (create_container_traces (calculate_dimensions b).1
      (((0 : Int) : Rat)) (((t : Int) : Rat) - 1) (calculate_dimensions b).2 1 1
      c.colour (hover_text c)) := by
    simp [process_record, hb, ht, h1, Raw.toInt]
  refine ⟨h1, ?_, ?_⟩
  · simp [assemble_main, h2]
  · intro p hp
    simp only [assemble_main, h2] at hp
    simp only [List.mem_singleton] at hp
    subst hp
    simp only [create_container_traces]
    norm_num

/-- Claim C1 witness: the amended statement at a concrete record. -/
theorem C1_witness :
    row_to_y (mkRecord (Raw.intLike 2) (Raw.intLike 0) (Raw.intLike 3)).row = some 0
    ∧ (assemble_main [mkRecord (Raw.intLike 2) (Raw.intLike 0) (Raw.intLike 3)]).length = 1
    ∧ ∀ p ∈ assemble_main [mkRecord (Raw.intLike 2) (Raw.intLike 0) (Raw.intLike 3)],
        p.1.y = [0, 0, 1, 1, 0, 0, 1, 1] :=
  C1_amended _ 2 3 rfl rfl rfl

/-- Claim C2, evaluation at a failing input: at any box (shown at origin with
unit dimensions) the solid mesh does have 12 triangles over 8 vertices, but
its 11th triangle is (3,4,5), which lies in none of the 6 face planes, and
the edge (0,1) borders exactly one triangle, so the surface is not closed --
the intended y-minimum face (0,4,5)/(0,5,1) is miswritten with vertex 3. -/
theorem C2_code_eval :
    (mesh_triangles (create_container_traces 0 0 0 1 1 1 "red" "box").1).length = 12
    ∧ ((create_container_traces 0 0 0 1 1 1 "red" "box").1).x.length = 8
    ∧ (mesh_edges (create_container_traces 0 0 0 1 1 1 "red" "box").1).count (0, 1) = 1
    ∧ (3, 4, 5) ∈ mesh_triangles (create_container_traces 0 0 0 1 1 1 "red" "box").1
    ∧ ¬ tri_in_face_plane 0 0 0 1 1 1 (create_container_traces 0 0 0 1 1 1 "red" "box").1 (3, 4, 5) := by
  refine ⟨rfl, rfl, by decide, by decide, ?_⟩
  simp only [tri_in_face_plane, mesh_vertex, create_container_traces, faceI, faceJ, faceK,
    List.getD_cons_zero, List.getD_cons_succ]
  norm_num

/-- Claim C3, counterexample: in the app.py loop a record whose bay cannot be
converted aborts the entire scene build (`none`), while the same input in the
main_stowage_viewer.py loop still yields the valid record's geometry. -/
theorem C3_cx :
    assemble_app [mkRecord (Raw.nonNumeric "BAD") (Raw.intLike 1) (Raw.intLike 1),
      mkRecord (Raw.intLike 1) (Raw.intLike 1) (Raw.intLike 1)] = none
    ∧ (assemble_main [mkRecord (Raw.nonNumeric "BAD") (Raw.intLike 1) (Raw.intLike 1),
      mkRecord (Raw.intLike 1) (Raw.intLike 1) (Raw.intLike 1)]).length = 1 :=
  ⟨rfl, rfl⟩

/-- Claim C3 (amended): a row/bay/tier conversion failure is a recoverable
per-record condition in the main entry point -- exactly the offending record
is excluded and the rest of the scene is unchanged -- but in the app.py loop
it aborts the whole scene build. -/
theorem C3_amended :
    (∀ (pre : List ContainerRecord) (c : ContainerRecord) (post : List ContainerRecord),
      unconvertible c → assemble_main (pre ++ c :: post) = assemble_main (pre ++ post))
    ∧ (∀ (pre : List ContainerRecord) (c : ContainerRecord) (post : List ContainerRecord),
      unconvertible c → assemble_app (pre ++ c :: post) = none) := by
  constructor
  · intro pre c post hc
    induction pre with
    | nil => simp [assemble_main, process_record_of_unconvertible c hc]
    | cons d ds ih =>
      simp only [List.cons_append, assemble_main, List.append_eq]
      rw [ih]
  · intro pre c post hc
    induction pre with
    | nil => simp [assemble_app, process_record_of_unconvertible c hc]
    | cons d ds ih =>
      simp only [List.cons_append, assemble_app, List.append_eq]
      rw [ih]
      cases process_record d <;> simp

/-- Claim C3 witness: the amended app.py half at a concrete record. -/
theorem C3_witness :
    assemble_app [mkRecord (Raw.nonNumeric "NOPE") (Raw.intLike 1) (Raw.intLike 2)] = none :=
  C3_amended.2 [] (mkRecord (Raw.nonNumeric "NOPE") (Raw.intLike 1) (Raw.intLike 2)) []
    (Or.inl rfl)

/-- Claim C4, counterexample: the odd, non-zero row code -1 maps to y = 0,
which is neither strictly positive nor distinct from 0. -/
theorem C4_cx : Odd (-1 : Int) ∧ (-1 : Int) ≠ 0 ∧ row_to_y (Raw.intLike (-1)) = some 0 :=
  ⟨Int.odd_iff.mpr (by decide), by decide, by decide⟩

/-- Claim C4 (amended): for every row code r ≥ 1, `row_to_y` is strictly
positive when r is odd and strictly negative when r is even, and in
particular never 0. -/
theorem C4_amended : ∀ r : Int, 1 ≤ r →
    ∃ y, row_to_y (Raw.intLike r) = some y ∧ (Odd r → 0 < y) ∧ (Even r → y < 0) ∧ y ≠ 0 := by
  intro r hr
  have h0 : ¬ r = 0 := by omega
  refine ⟨(if r % 2 = 1 then 1 else -1) * ((r + 1) / 2), ?_, ?_, ?_, ?_⟩
  · simp only [row_to_y, Raw.toInt, if_neg h0]
  · intro hodd
    have h1 : r % 2 = 1 := Int.odd_iff.mp hodd
    rw [if_pos h1]
    omega
  · intro heven
    have h1 : r % 2 = 0 := Int.even_iff.mp heven
    rw [if_neg (by omega : ¬ r % 2 = 1)]
    omega
  · rcases Int.emod_two_eq r with h | h
    · rw [if_neg (by omega : ¬ r % 2 = 1)]; omega
    · rw [if_pos h]; omega

/-- Claim C4 witness: the amended statement at row code 5. -/
theorem C4_witness :
    ∃ y, row_to_y (Raw.intLike 5) = some y ∧ (Odd (5 : Int) → 0 < y)
      ∧ (Even (5 : Int) → y < 0) ∧ y ≠ 0 :=
  C4_amended 5 (by decide)

/-- Claim C5: for every convertible row code r different from 0, `row_to_y`
returns sign * floor((r + 1) / 2) with sign +1 for odd r and -1 for even r
(Int division by the positive 2 is that floor), and in particular maps
1, 2, 3, 4 to 1, -1, 2, -2. -/
theorem C5_thm :
    (∀ r : Int, r ≠ 0 →
      row_to_y (Raw.intLike r) = some ((if Odd r then 1 else -1) * ((r + 1) / 2)))
    ∧ row_to_y (Raw.intLike 1) = some 1 ∧ row_to_y (Raw.intLike 2) = some (-1)
    ∧ row_to_y (Raw.intLike 3) = some 2 ∧ row_to_y (Raw.intLike 4) = some (-2) := by
  refine ⟨?_, by decide, by decide, by decide, by decide⟩
  intro r hr
  simp only [row_to_y, Raw.toInt, if_neg hr]
  congr 2
  by_cases h : r % 2 = 1
  · rw [if_pos h, if_pos (Int.odd_iff.mpr h)]
  · rw [if_neg h, if_neg (fun ho => h (Int.odd_iff.mp ho))]

/-- Claim C5 witness: the formula instantiated at row code 7. -/
theorem C5_witness :
    row_to_y (Raw.intLike 7) = some ((if Odd (7 : Int) then 1 else -1) * ((7 + 1) / 2)) :=
  C5_thm.1 7 (by decide)

/-- Claim C6: for every positive bay, `calculate_dimensions` returns
x_start = (bay - 2) / 2 with length 2.0 when the bay is even and
x_start = (bay - 1) / 2 with length 1.0 when it is odd. -/
theorem C6_thm : ∀ bay : Int, 0 < bay →
    (bay % 2 = 0 → calculate_dimensions bay = (((bay : Rat) - 2) / 2, 2))
    ∧ (bay % 2 = 1 → calculate_dimensions bay = (((bay : Rat) - 1) / 2, 1)) := by
  intro bay _
  constructor
  · intro h; simp [calculate_dimensions, h]
  · intro h; simp only [calculate_dimensions, if_neg (show ¬ bay % 2 = 0 by omega)]

/-- Claim C6 witness: both branches at bays 4 and 3. -/
theorem C6_witness :
    calculate_dimensions 4 = ((((4 : Int) : Rat) - 2) / 2, 2)
    ∧ calculate_dimensions 3 = ((((3 : Int) : Rat) - 1) / 2, 1) :=
  ⟨(C6_thm 4 (by decide)).1 (by decide), (C6_thm 3 (by decide)).2 (by decide)⟩

/-- Claim C7, counterexample: the distinct bays 1 (odd) and 2 (even) from the
standard layout produce longitudinal intervals [0,1] and [0,2], which overlap
in their interiors, refuting the claimed cross-class non-overlap. -/
theorem C7_cx : (1 : Int) ≠ 2 ∧ (1 : Int) % 2 = 1 ∧ (2 : Int) % 2 = 0 ∧ bays_overlap 1 2 := by
  refine ⟨by decide, by decide, by decide, ?_, ?_⟩ <;>
    norm_num [bays_overlap, calculate_dimensions]

/-- Claim C7 (amended): `calculate_dimensions` is injective on x_start within
each parity class and distinct odd bays never overlap, but intervals do
overlap across classes (bay 1 inside bay 2) and between even bays two apart
(bays 2 and 4). -/
theorem C7_amended :
    (∀ b₁ b₂ : Int, 0 < b₁ → 0 < b₂ → b₁ % 2 = b₂ % 2 →
      (calculate_dimensions b₁).1 = (calculate_dimensions b₂).1 → b₁ = b₂)
    ∧ (∀ b₁ b₂ : Int, 0 < b₁ → 0 < b₂ → b₁ % 2 = 1 → b₂ % 2 = 1 → b₁ ≠ b₂ →
      ¬ bays_overlap b₁ b₂)
    ∧ bays_overlap 1 2 ∧ bays_overlap 2 4 := by
  refine ⟨?_, ?_, ?_, ?_⟩
  · intro b₁ b₂ _ _ hpar hx
    rcases Int.emod_two_eq b₁ with h | h
    · rw [show b₁ % 2 = b₂ % 2 from hpar] at h
      simp only [calculate_dimensions, if_pos (hpar.trans h), if_pos h] at hx
      field_simp at hx
      exact_mod_cast hx
    · have h₂ : b₂ % 2 = 1 := by omega
      simp only [calculate_dimensions, if_neg (by omega : ¬ b₁ % 2 = 0),
        if_neg (by omega : ¬ b₂ % 2 = 0)] at hx
      field_simp at hx
      exact_mod_cast hx
  · intro b₁ b₂ _ _ h₁ h₂ hne hov
    rcases hov with ⟨hA, hB⟩
    simp only [calculate_dimensions, if_neg (by omega : ¬ b₁ % 2 = 0),
      if_neg (by omega : ¬ b₂ % 2 = 0)] at hA hB
    have hA' : (b₁ : Rat) < (b₂ : Rat) + 2 := by linarith
    have hB' : (b₂ : Rat) < (b₁ : Rat) + 2 := by linarith
    have a1 : b₁ < b₂ + 2 := by exact_mod_cast hA'
    have a2 : b₂ < b₁ + 2 := by exact_mod_cast hB'
    omega
  · norm_num [bays_overlap, calculate_dimensions]
  · norm_num [bays_overlap, calculate_dimensions]

/-- Claim C7 witness: odd bays 3 and 5 do not overlap. -/
theorem C7_witness : ¬ bays_overlap 3 5 :=
  C7_amended.2.1 3 5 (by decide) (by decide) (by decide) (by decide) (by decide)

/-- Claim C8, counterexample: the wireframe of a unit box splits into 6
path-break-separated groups, not the claimed 3. -/
theorem C8_cx :
    (segments (wirePoints (create_container_traces 0 0 0 1 1 1 "red" "box").2)).length = 6
    ∧ (segments (wirePoints (create_container_traces 0 0 0 1 1 1 "red" "box").2)).length ≠ 3 :=
  ⟨rfl, by decide⟩

/-- Claim C8 (amended): for every positive length/width/height the wireframe
is the bottom loop, a break, the top loop, a break, then the 4 vertical
edges as disconnected segments separated by breaks -- 6 break-separated
groups in all. -/
theorem C8_amended : ∀ (x y z length width height : Rat) (color hovertext : String),
    0 < length → 0 < width → 0 < height →
    segments (wirePoints (create_container_traces x y z length width height color hovertext).2) =
      [[(x, y, z), (x + length, y, z), (x + length, y + width, z), (x, y + width, z), (x, y, z)],
       [(x, y, z + height), (x + length, y, z + height), (x + length, y + width, z + height),
        (x, y + width, z + height), (x, y, z + height)],
       [(x, y, z), (x, y, z + height)],
       [(x + length, y, z), (x + length, y, z + height)],
       [(x + length, y + width, z), (x + length, y + width, z + height)],
       [(x, y + width, z), (x, y + width, z + height)]] := by
  intro x y z length width height color hovertext _ _ _
  rfl

/-- Claim C8 witness: the amended statement at the unit box. -/
theorem C8_witness :
    segments (wirePoints (create_container_traces 0 0 0 1 1 1 "red" "box").2) =
      [[((0 : Rat), (0 : Rat), (0 : Rat)), (0 + 1, 0, 0), (0 + 1, 0 + 1, 0), (0, 0 + 1, 0), (0, 0, 0)],
       [(0, 0, 0 + 1), (0 + 1, 0, 0 + 1), (0 + 1, 0 + 1, 0 + 1), (0, 0 + 1, 0 + 1), (0, 0, 0 + 1)],
       [(0, 0, 0), (0, 0, 0 + 1)],
       [(0 + 1, 0, 0), (0 + 1, 0, 0 + 1)],
       [(0 + 1, 0 + 1, 0), (0 + 1, 0 + 1, 0 + 1)],
       [(0, 0 + 1, 0), (0, 0 + 1, 0 + 1)]] :=
  C8_amended 0 0 0 1 1 1 "red" "box" (by decide) (by decide) (by decide)

/-- Claim C9: bay ticks depend only on the bay column (so row validity is
irrelevant); on an all-integer bay column the tick list exists, holds exactly
the even bays at position (bay - 2) / 2 with two-digit zero-padded labels, in
strictly ascending position order; bays 2 and 4 give [(0,"02"), (1,"04")] and
a lone bay 1 gives the empty list. -/
theorem C9_thm :
    (∀ rs₁ rs₂ : List ContainerRecord,
      rs₁.map ContainerRecord.bay = rs₂.map ContainerRecord.bay → bay_ticks rs₁ = bay_ticks rs₂)
    ∧ (∀ (records : List ContainerRecord) (bs : List Int),
      records.map ContainerRecord.bay = bs.map Raw.intLike →
      ∃ L, bay_ticks records = some L
        ∧ (∀ q, q ∈ L ↔ ∃ b, b ∈ bs ∧ b % 2 = 0 ∧ q = (((Int.cast b : Rat) - 2) / 2, pad2 b))
        ∧ List.Pairwise (fun p q => p.1 < q.1) L)
    ∧ bay_ticks [mkRecord (Raw.intLike 2) (Raw.intLike 1) (Raw.intLike 1),
        mkRecord (Raw.intLike 4) (Raw.intLike 1) (Raw.intLike 1)] = some [(0, "02"), (1, "04")]
    ∧ bay_ticks [mkRecord (Raw.intLike 1) (Raw.intLike 1) (Raw.intLike 1)] = some [] := by
  refine ⟨?_, ?_, ?_, rfl⟩
  · intro rs₁ rs₂ h
    unfold bay_ticks
    rw [h]
  · intro records bs h
    have hred : bay_ticks records = some
        (((bs.dedup.filter (fun b => b % 2 = 0)).insertionSort (· ≤ ·)).map
          (fun b => (((Int.cast b : Rat) - 2) / 2, pad2 b))) := by
      unfold bay_ticks
      rw [h, dedup_map_intLike, toIntAll_map_intLike]
    refine ⟨_, hred, ?_, ?_⟩
    · intro q
      simp only [List.mem_map, List.mem_insertionSort, List.mem_filter, List.mem_dedup,
        decide_eq_true_eq]
      constructor
      · rintro ⟨b, ⟨hb, he⟩, hq⟩
        exact ⟨b, hb, he, hq.symm⟩
      · rintro ⟨b, hb, he, hq⟩
        exact ⟨b, ⟨hb, he⟩, hq.symm⟩
    · have hnd : ((bs.dedup.filter (fun b => b % 2 = 0)).insertionSort (· ≤ ·)).Nodup :=
        (List.perm_insertionSort _ _).nodup_iff.mpr ((List.nodup_dedup bs).filter _)
      have hsort : List.Sorted (· ≤ ·)
          ((bs.dedup.filter (fun b => b % 2 = 0)).insertionSort (· ≤ ·)) :=
        List.sorted_insertionSort _ _
      have hlt := hsort.lt_of_le hnd
      rw [List.pairwise_map]
      refine hlt.imp ?_
      intro a b hab
      show ((Int.cast a : Rat) - 2) / 2 < ((Int.cast b : Rat) - 2) / 2
      have : (a : Rat) < (b : Rat) := by exact_mod_cast hab
      linarith
  · have h : bay_ticks [mkRecord (Raw.intLike 2) (Raw.intLike 1) (Raw.intLike 1),
        mkRecord (Raw.intLike 4) (Raw.intLike 1) (Raw.intLike 1)] =
        some [((((2 : Int) : Rat) - 2) / 2, pad2 2), ((((4 : Int) : Rat) - 2) / 2, pad2 4)] := rfl
    rw [h]
    have p2 : pad2 2 = "02" := by decide
    have p4 : pad2 4 = "04" := by decide
    rw [p2, p4]
    norm_num

/-- Claim C9 witness: bay ticks at two record lists sharing the bay column
but with different rows and tiers coincide. -/
theorem C9_witness :
    bay_ticks [mkRecord (Raw.intLike 6) (Raw.intLike 1) (Raw.intLike 1)] =
      bay_ticks [mkRecord (Raw.intLike 6) (Raw.intLike 0) (Raw.intLike 9)] :=
  C9_thm.1 _ _ rfl

/-- Claim C10: invalid row values are not filtered from the row-tick
derivation: an input containing row 0 yields a row tick at position 0
(`some 0`), and an input containing an unconvertible row value yields a row
tick whose position is the NOT_MAPPABLE sentinel `none`. -/
theorem C10_thm : ∀ records : List ContainerRecord,
    ((∃ c ∈ records, c.row = Raw.intLike 0) → ∃ p ∈ row_ticks records, p.1 = some 0)
    ∧ (∀ s : String, (∃ c ∈ records, c.row = Raw.nonNumeric s) →
      ∃ p ∈ row_ticks records, p.1 = none) := by
  intro records
  constructor
  · rintro ⟨c, hc, hrow⟩
    refine ⟨(row_to_y c.row, c.row.pyStr), ?_, by rw [hrow]; rfl⟩
    unfold row_ticks
    exact List.mem_map_of_mem _
      ((List.mem_insertionSort Raw.le).mpr (List.mem_dedup.mpr (List.mem_map_of_mem _ hc)))
  · intro s
    rintro ⟨c, hc, hrow⟩
    refine ⟨(row_to_y c.row, c.row.pyStr), ?_, by rw [hrow]; rfl⟩
    unfold row_ticks
    exact List.mem_map_of_mem _
      ((List.mem_insertionSort Raw.le).mpr (List.mem_dedup.mpr (List.mem_map_of_mem _ hc)))

/-- Claim C10 witness: both sentinel positions appear for a concrete input
holding a row 0 and an unconvertible row. -/
theorem C10_witness :
    (∃ p ∈ row_ticks [mkRecord (Raw.intLike 1) (Raw.intLike 0) (Raw.intLike 1),
        mkRecord (Raw.intLike 1) (Raw.nonNumeric "P9") (Raw.intLike 1)], p.1 = some 0)
    ∧ (∃ p ∈ row_ticks [mkRecord (Raw.intLike 1) (Raw.intLike 0) (Raw.intLike 1),
        mkRecord (Raw.intLike 1) (Raw.nonNumeric "P9") (Raw.intLike 1)], p.1 = none) :=
  ⟨(C10_thm _).1 ⟨mkRecord (Raw.intLike 1) (Raw.intLike 0) (Raw.intLike 1),
      List.mem_cons_self _ _, rfl⟩,
   (C10_thm _).2 "P9" ⟨mkRecord (Raw.intLike 1) (Raw.nonNumeric "P9") (Raw.intLike 1),
      List.mem_cons_of_mem _ (List.mem_cons_self _ _), rfl⟩⟩
